import Mathlib

/-!
Verification of the symbolic-regression service (`src/sr-service/app.py`).

The service is a thin HTTP wrapper: it registers protected numeric
operators, injects constant feature columns into the caller's dataset,
and delegates the evolutionary search to a library regressor.

Float64 values are modelled as real numbers.  Finiteness of a float64
result is modelled by the predicate `floatFinite`: the ideal real value
of the computation has absolute value at most `FMAX`, the largest finite
IEEE-754 double; a computation whose ideal value exceeds `FMAX` rounds
to Infinity in the actual float64 arithmetic.

The numeric payload of a request is modelled over `ℚ` (the exact values
of the float64 literals involved); a dataset cell is `Option ℚ`, with
`none` standing for a missing (`NaN`/`null`) value.
-/

namespace SRService

/-! ### Protected operator library (app.py lines 14-35) -/

/-- `_protected_div` (app.py line 14): `np.where(np.abs(x2) > 0.001, x1 / x2, 1.)`. -/
noncomputable def _protected_div (x1 x2 : ℝ) : ℝ :=
  if |x2| > 0.001 then x1 / x2 else 1

/-- `_protected_sqrt` (app.py line 18): `np.sqrt(np.abs(x1))`. -/
noncomputable def _protected_sqrt (x1 : ℝ) : ℝ :=
  Real.sqrt |x1|

/-- `_protected_log` (app.py line 22): `np.where(np.abs(x1) > 0.001, np.log(np.abs(x1)), 0.)`. -/
noncomputable def _protected_log (x1 : ℝ) : ℝ :=
  if |x1| > 0.001 then Real.log |x1| else 0

/-- `_protected_inv` (app.py line 27): `np.where(np.abs(x1) > 0.001, 1. / x1, 0.)`. -/
noncomputable def _protected_inv (x1 : ℝ) : ℝ :=
  if |x1| > 0.001 then 1 / x1 else 0

/-- `_protected_exp` (app.py line 32): `np.where(x1 < 10, np.exp(x1), np.exp(10))`. -/
noncomputable def _protected_exp (x1 : ℝ) : ℝ :=
  if x1 < 10 then Real.exp x1 else Real.exp 10

/-- Elementwise application of `_protected_div` over two vectors, as numpy
`np.where` applies it lane by lane. -/
noncomputable def protectedDivVec (a b : List ℝ) : List ℝ :=
  List.zipWith _protected_div a b

/-- The largest finite IEEE-754 double, `(2^53 - 1) * 2^971 ≈ 1.7977e308`. -/
noncomputable def FMAX : ℝ := (2 ^ 53 - 1) * 2 ^ 971

/-- A float64 computation stays finite iff its ideal real value has
absolute value at most `FMAX`. -/
def floatFinite (x : ℝ) : Prop := |x| ≤ FMAX

/-! ### The `/fit` endpoint pipeline (app.py lines 51-126) -/

/-- A dataset cell as parsed from JSON: `none` models a missing value. -/
abbrev Cell := Option ℚ

/-- A pandas DataFrame: an ordered list of named columns
(`pd.DataFrame(data_json)`, app.py line 62). -/
abbrev DataFrame := List (String × List Cell)

/-- `df.columns`: the column names in order. -/
def dfColumns (df : DataFrame) : List String := df.map Prod.fst

/-- The number of rows: the common length of the columns (taken from the
first column). -/
def numRows (df : DataFrame) : ℕ :=
  ((df.head?).map (fun p => p.2.length)).getD 0

/-- `df[name] = v` for a scalar `v` (app.py lines 68-75): pandas
overwrites an existing column in place, keeping its position and length,
and otherwise appends a new column every row of which holds `v`. -/
def setColumn (df : DataFrame) (name : String) (v : ℚ) : DataFrame :=
  if (dfColumns df).contains name then
    df.map (fun p => if p.1 = name then (p.1, p.2.map (fun _ => some v)) else p)
  else
    df ++ [(name, List.replicate (numRows df) (some v))]

/-- The four named constants injected at app.py lines 68-71. -/
def namedConstants : List (String × ℚ) :=
  [("const_pi", 3.14159), ("const_e", 2.71828), ("const_g", 9.8), ("const_0", 0)]

/-- The integer columns `"1"` … `"10"` injected by the loop at app.py
lines 74-75 (`df[f'{i}'] = float(i)` for `i` in `range(1, 11)`). -/
def intConstants : List (String × ℚ) :=
  (List.range 10).map (fun i => (toString (i + 1), ((i + 1 : ℕ) : ℚ)))

/-- app.py lines 68-75: inject the constant columns, in source order. -/
def injectConstants (df : DataFrame) : DataFrame :=
  (namedConstants ++ intConstants).foldl (fun d p => setColumn d p.1 p.2) df

/-- The names of the injected constant columns, in injection order. -/
def injectedNames : List String :=
  (namedConstants ++ intConstants).map Prod.fst

/-- `df.drop(columns=[name])` (app.py line 81). -/
def dropColumn (df : DataFrame) (name : String) : DataFrame :=
  df.filter (fun p => p.1 != name)

/-- `df[name]` column selection (app.py line 82); an absent name yields
the empty column. -/
def getColumn (df : DataFrame) (name : String) : List Cell :=
  ((df.find? (fun p => p.1 == name)).map Prod.snd).getD []

/-- `fillna(0)` on one cell: a missing value becomes `0.0`. -/
def fillnaCell (c : Cell) : ℚ := c.getD 0

/-- `fillna(0)` on one column. -/
def fillnaColumn (col : List Cell) : List ℚ := col.map fillnaCell

/-- `fillna(0)` on a whole frame (app.py line 81). -/
def fillnaDF (df : DataFrame) : List (String × List ℚ) :=
  df.map (fun p => (p.1, fillnaColumn p.2))

/-- A gplearn function-set entry: either a builtin operator name passed
through as a raw string, or one of the custom protected functions
registered with `make_function` (app.py lines 38-42), carrying its
declared name and arity. -/
inductive GPFunction where
  | builtin (name : String)
  | custom (name : String) (arity : ℕ)
deriving DecidableEq

/-- `delta_div = make_function(function=_protected_div, name='div', arity=2)`. -/
def delta_div : GPFunction := .custom "div" 2

/-- `delta_sqrt` (app.py line 39). -/
def delta_sqrt : GPFunction := .custom "sqrt" 1

/-- `delta_log` (app.py line 40). -/
def delta_log : GPFunction := .custom "log" 1

/-- `delta_inv` (app.py line 41). -/
def delta_inv : GPFunction := .custom "inv" 1

/-- `delta_exp` (app.py line 42). -/
def delta_exp : GPFunction := .custom "exp" 1

/-- `FUNCTION_MAP` (app.py lines 44-49). -/
def FUNCTION_MAP : List (String × GPFunction) :=
  [("add", .builtin "add"), ("sub", .builtin "sub"), ("mul", .builtin "mul"),
   ("div", delta_div), ("sqrt", delta_sqrt), ("log", delta_log),
   ("abs", .builtin "abs"), ("neg", .builtin "neg"), ("inv", delta_inv),
   ("sin", .builtin "sin"), ("cos", .builtin "cos"), ("tan", .builtin "tan"),
   ("exp", delta_exp)]

/-- app.py lines 87-93: map the requested names through `FUNCTION_MAP`
(a name absent from the map is appended as the raw string), then default
to `['add', 'sub', 'mul', delta_div]` when the list comes out empty. -/
def resolvedFunctionSet (names : List String) : List GPFunction :=
  let fs := names.map (fun f =>
    ((FUNCTION_MAP.find? (fun p => p.1 == f)).map Prod.snd).getD (.builtin f))
  if fs.isEmpty then [.builtin "add", .builtin "sub", .builtin "mul", delta_div]
  else fs

/-- The keyword arguments of the `SymbolicRegressor` constructed at
app.py lines 98-114. -/
structure EngineParams where
  population_size : ℕ
  generations : ℕ
  const_range : Option (ℚ × ℚ)
  stopping_criteria : ℚ
  p_crossover : ℚ
  p_subtree_mutation : ℚ
  p_hoist_mutation : ℚ
  p_point_mutation : ℚ
  max_samples : ℚ
  verbose : ℕ
  parsimony_coefficient : ℚ
  random_state : ℕ
  function_set : List GPFunction
  n_jobs : ℤ
deriving DecidableEq

/-- app.py lines 98-114: every engine parameter except `function_set` is a
hardcoded literal of the handler. -/
def engineConfig (fs : List GPFunction) : EngineParams :=
  { population_size := 1000
    generations := 20
    const_range := none
    stopping_criteria := 0.001
    p_crossover := 0.7
    p_subtree_mutation := 0.1
    p_hoist_mutation := 0.05
    p_point_mutation := 0.1
    max_samples := 0.9
    verbose := 0
    parsimony_coefficient := 0.02
    random_state := 42
    function_set := fs
    n_jobs := -1 }

/-- A JSON value in a response body. -/
inductive JValue where
  | str (s : String)
  | num (q : ℚ)
  | strList (l : List String)
deriving DecidableEq

/-- An HTTP response from the `/fit` endpoint: an error body
`{"error": msg}` with a status code, or a 200 body of key/value pairs. -/
inductive Response where
  | error (msg : String) (code : ℕ)
  | ok (body : List (String × JValue))
deriving DecidableEq

/-- Whether a response is a 200 success. -/
def Response.isOk : Response → Bool
  | .ok _ => true
  | .error _ _ => false

/-- The keys of a success body (empty for an error response). -/
def Response.keys : Response → List String
  | .ok body => body.map Prod.fst
  | .error _ _ => []

/-- What the delegated regressor reports back: `str(est._program)` and
`est.score(X, y)` (app.py lines 118-119). -/
structure EngineOutcome where
  formula : String
  accuracy : ℚ
deriving DecidableEq

/-- The delegated engine as a function of the constructor parameters and
the prepared feature matrix and target vector. -/
abbrev Engine := EngineParams → List (String × List ℚ) → List ℚ → EngineOutcome

/-- The parsed `/fit` request: the handler reads only `data`,
`function_set` (default `[]`) and `output_column` from the JSON body;
any further numeric keys the caller sends (`extra`) are never read. -/
structure FitRequest where
  data : DataFrame
  function_set : List String
  output_column : Option String
  extra : List (String × ℚ)
deriving DecidableEq

/-- The single-quote character of the f-string at app.py line 78. -/
def sq : String := String.singleton (Char.ofNat 39)

/-- `f"Target '{target_col}' not found"` (app.py line 78). -/
def targetNotFoundMsg (target : String) : String :=
  "Target " ++ sq ++ target ++ sq ++ " not found"

/-- app.py lines 52-126: the `/fit` handler, parametrized by the engine it
delegates to.  `if not data_json or not target_col` (line 59) rejects an
absent or empty dataset and an absent or empty target name; the constants
are injected (lines 68-75) before the target-presence check (line 77);
`X` drops the target column and `y` selects it, both through `fillna(0)`
(lines 81-82); the success body holds the formula, the score and the
ordered feature names (lines 122-126). -/
def fitModelWith (engine : Engine) (req : FitRequest) : Response :=
  let target := req.output_column.getD ""
  if req.data.isEmpty || target == "" then .error "Missing data" 400
  else
    let df := injectConstants req.data
    if ¬ (dfColumns df).contains target then
      .error (targetNotFoundMsg target) 400
    else
      let X := fillnaDF (dropColumn df target)
      let y := fillnaColumn (getColumn df target)
      let feature_names := X.map Prod.fst
      let outcome := engine (engineConfig (resolvedFunctionSet req.function_set)) X y
      .ok [("formula", .str outcome.formula),
           ("accuracy", .num outcome.accuracy),
           ("feature_names", .strList feature_names)]

/-- Modelled from the spec: the evolutionary search engine itself
(gplearn's `SymbolicRegressor`, the spec's §2-§4 core) is delegated to a
library and absent from `src/`; spec §4.5 requires it to be a
deterministic function of its configuration and data ("given an identical
seed, Config, and Dataset, the Driver must produce bit-identical output"),
so it is modelled as a pure function.  Its output value is not determined
by the spec; this model fixes an arbitrary one. -/
def runEngine : Engine := fun _ _ _ => { formula := "", accuracy := 0 }

/-- The deployed handler: `fitModelWith` applied to the library engine. -/
def fit_model : FitRequest → Response := fitModelWith runEngine

/-! ### Concrete requests and probe engines used by witnesses and
counterexamples -/

/-- A simple well-formed request: two supplied columns, target `y`; the
`y` column contains a missing value. -/
def reqExample : FitRequest :=
  { data := [("x", [some 1, some 2]), ("y", [some 3, none])],
    function_set := ["add", "div"], output_column := some "y", extra := [] }

/-- `reqExample` with caller-chosen engine options in the request body. -/
def reqExtraA : FitRequest :=
  { reqExample with extra := [("population_size", 5), ("seed", 7)] }

/-- `reqExample` with different caller-chosen engine options. -/
def reqExtraB : FitRequest :=
  { reqExample with extra := [("population_size", 800), ("seed", 9)] }

/-- A request asking for caller-side engine configuration: population
size 5, 3 generations, seed 7. -/
def reqCallerConfig : FitRequest :=
  { data := [("x", [some 1]), ("y", [some 2])],
    function_set := ["add"], output_column := some "y",
    extra := [("population_size", 5), ("generations", 3), ("seed", 7)] }

/-- A request whose target is absent both from the supplied data and from
the injected constant names. -/
def reqTargetAbsent : FitRequest :=
  { data := [("Time", [some 1])], function_set := [],
    output_column := some "Energy", extra := [] }

/-- A request whose target `const_pi` is absent from the supplied data
but collides with an injected constant name. -/
def reqTargetConstPi : FitRequest :=
  { data := [("Time", [some 1])], function_set := [],
    output_column := some "const_pi", extra := [] }

/-- An engine that reports back, as the score, the population size it was
invoked with. -/
def probePopulation : Engine :=
  fun p _ _ => { formula := "", accuracy := (p.population_size : ℚ) }

/-- The `feature_names` list of a success body (empty otherwise). -/
def Response.featureNames : Response → List String
  | .ok body =>
    match body.find? (fun p => p.1 == "feature_names") with
    | some (_, .strList l) => l
    | _ => []
  | .error _ _ => []

/-- The body `fit_model` produces for `reqExample`. -/
def exampleBody : List (String × JValue) :=
  [("formula", .str ""), ("accuracy", .num 0),
   ("feature_names", .strList
     ["x", "const_pi", "const_e", "const_g", "const_0",
      "1", "2", "3", "4", "5", "6", "7", "8", "9", "10"])]

end SRService

namespace SRService

/-! ### Bounds on `FMAX` -/

theorem one_le_FMAX : (1 : ℝ) ≤ FMAX := by
  norm_num [FMAX]

theorem FMAX_pos : (0 : ℝ) < FMAX :=
  lt_of_lt_of_le one_pos one_le_FMAX

/-! ### C1-C3: protected operator semantics -/

/-- C1: for finite float vectors `a`, `b`, the protected division returns
`a/b` elementwise wherever `|b| > 0.001`, and `1.0` wherever `|b| ≤ 0.001`. -/
theorem protected_div_elementwise (a b : List ℝ) (i : ℕ)
    (ha : i < a.length) (hb : i < b.length)
    (h : i < (protectedDivVec a b).length) :
    (|b.get ⟨i, hb⟩| > 0.001 →
      (protectedDivVec a b).get ⟨i, h⟩ = a.get ⟨i, ha⟩ / b.get ⟨i, hb⟩) ∧
    (|b.get ⟨i, hb⟩| ≤ 0.001 →
      (protectedDivVec a b).get ⟨i, h⟩ = 1) := by
  have hz : (protectedDivVec a b).get ⟨i, h⟩
      = _protected_div (a.get ⟨i, ha⟩) (b.get ⟨i, hb⟩) := by
    simp [protectedDivVec, List.get_eq_getElem, List.getElem_zipWith]
  constructor
  · intro hgt
    rw [hz]
    simp only [_protected_div]
    rw [if_pos hgt]
  · intro hle
    rw [hz]
    simp only [_protected_div]
    rw [if_neg (not_lt.mpr hle)]

/-- Witness for C1 at `a = [3, 5]`, `b = [2, 0]`, position 0 where `|2| > 0.001`. -/
theorem protected_div_elementwise_witness :
    (protectedDivVec [3, 5] [2, 0]).get ⟨0, by simp [protectedDivVec]⟩
      = 3 / 2 :=
  (protected_div_elementwise [3, 5] [2, 0] 0 (by simp) (by simp)
    (by simp [protectedDivVec])).1 (by norm_num)

/-- C2: protected `sqrt` returns `sqrt |x|`; protected `log` returns
`log |x|` when `|x| > 0.001` and `0` otherwise; protected `inv` returns
`1/x` when `|x| > 0.001` and `0` otherwise — the strict comparison with
`0.001` decides the branch, so the boundary `|x| = 0.001` falls in the
`0` branch. -/
theorem protected_unary_spec (x : ℝ) :
    _protected_sqrt x = Real.sqrt |x| ∧
    (|x| > 0.001 → _protected_log x = Real.log |x|) ∧
    (|x| ≤ 0.001 → _protected_log x = 0) ∧
    (|x| > 0.001 → _protected_inv x = 1 / x) ∧
    (|x| ≤ 0.001 → _protected_inv x = 0) := by
  refine ⟨rfl, fun hgt => ?_, fun hle => ?_, fun hgt => ?_, fun hle => ?_⟩
  · simp only [_protected_log]
    rw [if_pos hgt]
  · simp only [_protected_log]
    rw [if_neg (not_lt.mpr hle)]
  · simp only [_protected_inv]
    rw [if_pos hgt]
  · simp only [_protected_inv]
    rw [if_neg (not_lt.mpr hle)]

/-- Witness for C2 at `x = 2` (above the threshold) and at the exact
boundary `x = 1/1000` (the `≤` branch). -/
theorem protected_unary_spec_witness :
    _protected_log 2 = Real.log |(2 : ℝ)| ∧ _protected_inv (1 / 1000) = 0 :=
  ⟨(protected_unary_spec 2).2.1 (by norm_num),
   (protected_unary_spec (1 / 1000)).2.2.2.2
     (by rw [abs_of_nonneg (by norm_num)]; norm_num)⟩

/-- Both branches of the protected exponential are bounded by `exp 10`. -/
theorem protected_exp_le_exp_ten (x : ℝ) : _protected_exp x ≤ Real.exp 10 := by
  simp only [_protected_exp]
  split
  · exact Real.exp_le_exp.mpr (le_of_lt (by assumption))
  · exact le_refl _

/-- Both branches of the protected exponential are positive. -/
theorem protected_exp_pos (x : ℝ) : 0 < _protected_exp x := by
  simp only [_protected_exp]
  split <;> exact Real.exp_pos _

/-- C3: protected `exp` returns `exp x` when `x < 10` and `exp 10` when
`x ≥ 10`; in every case the result is bounded by `exp 10`, so it never
overflows. -/
theorem protected_exp_spec (x : ℝ) :
    (x < 10 → _protected_exp x = Real.exp x) ∧
    (10 ≤ x → _protected_exp x = Real.exp 10) ∧
    _protected_exp x ≤ Real.exp 10 := by
  refine ⟨fun hlt => ?_, fun hge => ?_, protected_exp_le_exp_ten x⟩
  · simp only [_protected_exp]
    rw [if_pos hlt]
  · simp only [_protected_exp]
    rw [if_neg (not_lt.mpr hge)]

/-- Witness for C3 at `x = 0` (uncapped branch) and `x = 11` (capped branch). -/
theorem protected_exp_spec_witness :
    _protected_exp 0 = Real.exp 0 ∧ _protected_exp 11 = Real.exp 10 :=
  ⟨(protected_exp_spec 0).1 (by norm_num),
   (protected_exp_spec 11).2.1 (by norm_num)⟩

/-! ### C7: finiteness of the protected operators -/

/-- `exp 10` stays below the largest finite double:
`exp 10 = (exp 1)^10 < 2.7182818286^10 < FMAX`. -/
theorem exp_ten_le_FMAX : Real.exp 10 ≤ FMAX := by
  have h1 : Real.exp 10 = Real.exp 1 ^ 10 := by
    rw [← Real.exp_nat_mul]
    norm_num
  have h2 : Real.exp 1 ^ 10 ≤ (2.7182818286 : ℝ) ^ 10 :=
    pow_le_pow_left₀ (Real.exp_pos 1).le Real.exp_one_lt_d9.le 10
  have h3 : (2.7182818286 : ℝ) ^ 10 ≤ FMAX := by norm_num [FMAX]
  linarith

/-- C7 counterexample: the finite inputs `a = FMAX` and `b = 1/500`
(`|b| = 0.002 > 0.001`, so the quotient branch applies) make protected
division return `500 * FMAX`, which exceeds the largest finite double —
in float64 arithmetic this quotient overflows to Infinity even though
both operands are finite. -/
theorem protected_div_overflow :
    floatFinite FMAX ∧ floatFinite (1 / 500) ∧
    ¬ floatFinite (_protected_div FMAX (1 / 500)) := by
  have hb : |(1 / 500 : ℝ)| = 1 / 500 := abs_of_pos (by norm_num)
  have hcond : |(1 / 500 : ℝ)| > 0.001 := by rw [hb]; norm_num
  refine ⟨?_, ?_, ?_⟩
  · simp only [floatFinite]
    rw [abs_of_pos FMAX_pos]
  · simp only [floatFinite]
    rw [hb]
    linarith [one_le_FMAX]
  · intro habs
    simp only [floatFinite, _protected_div] at habs
    rw [if_pos hcond] at habs
    have hdiv : FMAX / (1 / 500) = 500 * FMAX := by ring
    rw [hdiv, abs_of_pos (by linarith [FMAX_pos])] at habs
    linarith [FMAX_pos]

/-- C7 (amended): for every finite input, the protected `sqrt`, `log`,
`inv` and `exp` produce finite outputs, and protected division is finite
on its guarded branch `|b| ≤ 0.001` (where it returns `1.0`); on the
quotient branch `|b| > 0.001` the quotient `a/b` can exceed the largest
finite float and overflow to Infinity (see the counterexample above). -/
theorem protected_ops_finite (x b : ℝ) (hx : floatFinite x) :
    floatFinite (_protected_sqrt x) ∧ floatFinite (_protected_log x) ∧
    floatFinite (_protected_inv x) ∧ floatFinite (_protected_exp x) ∧
    (|b| ≤ 0.001 → floatFinite (_protected_div x b)) := by
  have hxF : |x| ≤ FMAX := hx
  refine ⟨?_, ?_, ?_, ?_, ?_⟩
  · simp only [floatFinite, _protected_sqrt]
    rw [abs_of_nonneg (Real.sqrt_nonneg _), Real.sqrt_le_left FMAX_pos.le]
    have h2 : FMAX ≤ FMAX ^ 2 := by nlinarith [one_le_FMAX]
    linarith
  · simp only [floatFinite, _protected_log]
    split
    case isTrue hgt =>
      have hx0 : (0 : ℝ) < |x| := lt_trans (by norm_num) hgt
      have hup : Real.log |x| ≤ FMAX := by
        have hsub := Real.log_le_sub_one_of_pos hx0
        linarith
      have hlow : -FMAX ≤ Real.log |x| := by
        have h1 : Real.log 0.001 ≤ Real.log |x| :=
          (Real.log_le_log_iff (by norm_num) hx0).mpr (le_of_lt hgt)
        have h2 : Real.log 0.001 = -Real.log 1000 := by
          rw [show (0.001 : ℝ) = 1000⁻¹ by norm_num, Real.log_inv]
        have h3 : Real.log 1000 ≤ 999 := by
          have hsub := Real.log_le_sub_one_of_pos (by norm_num : (0 : ℝ) < 1000)
          linarith
        have h4 : (999 : ℝ) ≤ FMAX := by norm_num [FMAX]
        linarith
      rw [abs_le]
      exact ⟨hlow, hup⟩
    case isFalse h =>
      rw [abs_zero]
      exact FMAX_pos.le
  · simp only [floatFinite, _protected_inv]
    split
    case isTrue hgt =>
      have h1 : |1 / x| = 1 / |x| := by rw [abs_div, abs_one]
      rw [h1]
      have h2 : 1 / |x| < 1 / 0.001 :=
        one_div_lt_one_div_of_lt (by norm_num) hgt
      have h3 : (1 : ℝ) / 0.001 = 1000 := by norm_num
      have h4 : (1000 : ℝ) ≤ FMAX := by norm_num [FMAX]
      linarith
    case isFalse h =>
      rw [abs_zero]
      exact FMAX_pos.le
  · simp only [floatFinite]
    rw [abs_of_pos (protected_exp_pos x)]
    exact le_trans (protected_exp_le_exp_ten x) exp_ten_le_FMAX
  · intro hle
    simp only [floatFinite, _protected_div]
    rw [if_neg (not_lt.mpr hle), abs_one]
    exact one_le_FMAX

/-- Witness for the amended C7 at `x = 0`, `b = 0`: a finite input whose
protected outputs are all finite, the guarded division branch included. -/
theorem protected_ops_finite_witness :
    floatFinite (_protected_sqrt 0) ∧ floatFinite (_protected_log 0) ∧
    floatFinite (_protected_inv 0) ∧ floatFinite (_protected_exp 0) ∧
    floatFinite (_protected_div 0 0) := by
  have h := protected_ops_finite 0 0
    (by simp only [floatFinite, abs_zero]; exact FMAX_pos.le)
  exact ⟨h.1, h.2.1, h.2.2.1, h.2.2.2.1,
    h.2.2.2.2 (by rw [abs_zero]; norm_num)⟩

/-! ### Structural lemmas about `setColumn` and the constant injection -/

/-- Overwriting an existing column leaves the column names unchanged. -/
theorem dfColumns_setColumn_of_mem {df : DataFrame} {name : String} (v : ℚ)
    (h : name ∈ dfColumns df) :
    dfColumns (setColumn df name v) = dfColumns df := by
  have hb : (dfColumns df).contains name = true := by simp [h]
  simp only [setColumn, hb, if_true]
  simp only [dfColumns, List.map_map]
  apply List.map_congr_left
  intro p _
  by_cases hc : p.1 = name <;> simp [hc]

/-- Assigning a fresh column appends its name. -/
theorem dfColumns_setColumn_of_not_mem {df : DataFrame} {name : String} (v : ℚ)
    (h : name ∉ dfColumns df) :
    dfColumns (setColumn df name v) = dfColumns df ++ [name] := by
  have hb : (dfColumns df).contains name = false := by simp [h]
  simp only [setColumn, hb]
  simp [dfColumns]

/-- Column assignment never changes the row count. -/
theorem numRows_setColumn (df : DataFrame) (name : String) (v : ℚ) :
    numRows (setColumn df name v) = numRows df := by
  simp only [setColumn]
  split
  · cases df with
    | nil => rfl
    | cons c rest =>
      simp only [numRows, List.map_cons, List.head?_cons]
      by_cases hc : c.1 = name <;> simp [hc]
  · cases df with
    | nil => simp [numRows]
    | cons c rest => simp [numRows]

/-- Assigning a fresh column makes it readable back: a constant column of
the frame's row count. -/
theorem getColumn_setColumn_of_not_mem {df : DataFrame} {name : String} (v : ℚ)
    (h : name ∉ dfColumns df) :
    getColumn (setColumn df name v) name
      = List.replicate (numRows df) (some v) := by
  have hb : (dfColumns df).contains name = false := by simp [h]
  simp only [setColumn, hb]
  simp only [getColumn, List.find?_append]
  have hfind : df.find? (fun p => p.1 == name) = none := by
    rw [List.find?_eq_none]
    intro p hp
    simp only [beq_iff_eq]
    intro he
    exact h (he ▸ List.mem_map_of_mem Prod.fst hp)
  simp [hfind]

/-- Assigning a column does not disturb reads of other columns. -/
theorem getColumn_setColumn_of_ne {name m : String} (df : DataFrame) (v : ℚ)
    (hne : m ≠ name) :
    getColumn (setColumn df name v) m = getColumn df m := by
  simp only [setColumn]
  split
  · simp only [getColumn, List.find?_map]
    have hpred : ((fun p : String × List Cell => p.1 == m) ∘
        (fun p => if p.1 = name then (p.1, p.2.map (fun _ => some v)) else p))
        = fun p : String × List Cell => p.1 == m := by
      funext p
      by_cases hc : p.1 = name <;> simp [hc]
    rw [hpred]
    cases hf : df.find? (fun p => p.1 == m) with
    | none => simp
    | some p =>
      have hm : p.1 = m := by
        have hp := List.find?_some hf
        simpa using hp
      have hne2 : ¬ p.1 = name := by rw [hm]; exact hne
      simp [hne2]
  · simp only [getColumn, List.find?_append]
    have hnew : List.find? (fun p => p.1 == m)
        [(name, List.replicate (numRows df) (some v))] = none := by
      have hb : (name == m) = false :=
        beq_eq_false_iff_ne.mpr (fun he => hne he.symm)
      simp [hb]
    rw [hnew]
    simp

/-- Folding fresh constant assignments over a frame: the names are
appended in order, the row count is preserved, each new column reads back
as a constant column of the original row count, and previously existing
columns are untouched. -/
theorem foldl_setColumn_fresh (cs : List (String × ℚ)) (df : DataFrame)
    (hnodup : (cs.map Prod.fst).Nodup)
    (hfresh : ∀ n ∈ cs.map Prod.fst, n ∉ dfColumns df) :
    dfColumns (cs.foldl (fun d p => setColumn d p.1 p.2) df)
        = dfColumns df ++ cs.map Prod.fst ∧
    numRows (cs.foldl (fun d p => setColumn d p.1 p.2) df) = numRows df ∧
    (∀ p ∈ cs, getColumn (cs.foldl (fun d p => setColumn d p.1 p.2) df) p.1
        = List.replicate (numRows df) (some p.2)) ∧
    (∀ m, m ∉ cs.map Prod.fst →
      getColumn (cs.foldl (fun d p => setColumn d p.1 p.2) df) m
        = getColumn df m) := by
  induction cs generalizing df with
  | nil => simp
  | cons c rest ih =>
    have hcfresh : c.1 ∉ dfColumns df := hfresh c.1 (by simp)
    have hnodup2 : (c.1 :: rest.map Prod.fst).Nodup := by
      rw [List.map_cons] at hnodup
      exact hnodup
    have hnd := List.nodup_cons.mp hnodup2
    have hcols1 : dfColumns (setColumn df c.1 c.2) = dfColumns df ++ [c.1] :=
      dfColumns_setColumn_of_not_mem c.2 hcfresh
    have hrows1 : numRows (setColumn df c.1 c.2) = numRows df :=
      numRows_setColumn df c.1 c.2
    have hget1 : getColumn (setColumn df c.1 c.2) c.1
        = List.replicate (numRows df) (some c.2) :=
      getColumn_setColumn_of_not_mem c.2 hcfresh
    have hfresh' : ∀ n ∈ rest.map Prod.fst,
        n ∉ dfColumns (setColumn df c.1 c.2) := by
      intro n hn
      rw [hcols1]
      intro hmem
      rcases List.mem_append.mp hmem with hl | hr
      · exact hfresh n (by simp [hn]) hl
      · have he : n = c.1 := by simpa using hr
        exact hnd.1 (he ▸ hn)
    obtain ⟨ihcols, ihrows, ihget, ihpres⟩ :=
      ih (setColumn df c.1 c.2) hnd.2 hfresh'
    have hfoldc : (c :: rest).foldl (fun d p => setColumn d p.1 p.2) df
        = rest.foldl (fun d p => setColumn d p.1 p.2) (setColumn df c.1 c.2) :=
      rfl
    refine ⟨?_, ?_, ?_, ?_⟩
    · rw [hfoldc, ihcols, hcols1]
      simp
    · rw [hfoldc, ihrows, hrows1]
    · intro p hp
      rcases List.mem_cons.mp hp with hpc | hpr
      · subst hpc
        rw [hfoldc, ihpres p.1 hnd.1, hget1]
      · rw [hfoldc, ihget p hpr, hrows1]
    · intro m hm
      have hm1 : m ∉ rest.map Prod.fst := fun hmem => hm (by simp [hmem])
      have hm2 : m ≠ c.1 := fun he => hm (by simp [he])
      rw [hfoldc, ihpres m hm1, getColumn_setColumn_of_ne df c.2 hm2]

/-- Constant injection on a frame whose columns avoid the 14 injected
names: the names are appended in order and each injected column is the
announced constant, broadcast over the frame's rows. -/
theorem injectConstants_fresh (df : DataFrame)
    (hfresh : ∀ n ∈ injectedNames, n ∉ dfColumns df) :
    dfColumns (injectConstants df) = dfColumns df ++ injectedNames ∧
    numRows (injectConstants df) = numRows df ∧
    (∀ p ∈ namedConstants ++ intConstants,
      getColumn (injectConstants df) p.1
        = List.replicate (numRows df) (some p.2)) ∧
    (∀ m, m ∉ injectedNames → getColumn (injectConstants df) m = getColumn df m) := by
  have hnodup : ((namedConstants ++ intConstants).map Prod.fst).Nodup := by decide
  exact foldl_setColumn_fresh (namedConstants ++ intConstants) df hnodup hfresh

/-- A name is a column of `setColumn df n v` iff it is a column of `df`
or the assigned name itself. -/
theorem mem_dfColumns_setColumn (df : DataFrame) (n : String) (v : ℚ)
    (m : String) :
    m ∈ dfColumns (setColumn df n v) ↔ m ∈ dfColumns df ∨ m = n := by
  by_cases h : n ∈ dfColumns df
  · rw [dfColumns_setColumn_of_mem v h]
    constructor
    · exact Or.inl
    · rintro (hm | rfl)
      · exact hm
      · exact h
  · rw [dfColumns_setColumn_of_not_mem v h]
    simp

/-- A name is a column of the injected frame iff it is a supplied column
or one of the injected constant names — so a target colliding with an
injected name passes the presence check of app.py line 77. -/
theorem mem_dfColumns_injectConstants (df : DataFrame) (m : String) :
    m ∈ dfColumns (injectConstants df) ↔
      m ∈ dfColumns df ∨ m ∈ injectedNames := by
  show m ∈ dfColumns ((namedConstants ++ intConstants).foldl
      (fun d p => setColumn d p.1 p.2) df) ↔
    m ∈ dfColumns df ∨ m ∈ (namedConstants ++ intConstants).map Prod.fst
  generalize namedConstants ++ intConstants = cs
  induction cs generalizing df with
  | nil => simp
  | cons c rest ih =>
    have hfoldc : (c :: rest).foldl (fun d p => setColumn d p.1 p.2) df
        = rest.foldl (fun d p => setColumn d p.1 p.2) (setColumn df c.1 c.2) :=
      rfl
    rw [hfoldc, ih (setColumn df c.1 c.2), mem_dfColumns_setColumn]
    simp [or_assoc]

/-- `fillna(0)` keeps the column names. -/
theorem fillnaDF_names (df : DataFrame) :
    (fillnaDF df).map Prod.fst = dfColumns df := by
  simp only [fillnaDF, dfColumns, List.map_map]
  rfl

/-- Dropping a column filters its name out of the column list. -/
theorem dropColumn_names (df : DataFrame) (t : String) :
    dfColumns (dropColumn df t) = (dfColumns df).filter (fun s => s != t) := by
  simp only [dropColumn, dfColumns]
  rw [List.filter_map]
  rfl

/-- On the success path — nonempty data, nonempty target name present
after injection — the handler invokes the engine on the zero-filled
feature matrix and target column and wraps the outcome with the ordered
feature names. -/
theorem fitModelWith_ok (engine : Engine) (req : FitRequest) (t : String)
    (ht : req.output_column = some t) (hne : t ≠ "")
    (hdata : req.data.isEmpty = false)
    (hfound : t ∈ dfColumns (injectConstants req.data)) :
    fitModelWith engine req =
      .ok [("formula", .str (engine
              (engineConfig (resolvedFunctionSet req.function_set))
              (fillnaDF (dropColumn (injectConstants req.data) t))
              (fillnaColumn (getColumn (injectConstants req.data) t))).formula),
           ("accuracy", .num (engine
              (engineConfig (resolvedFunctionSet req.function_set))
              (fillnaDF (dropColumn (injectConstants req.data) t))
              (fillnaColumn (getColumn (injectConstants req.data) t))).accuracy),
           ("feature_names", .strList
              ((fillnaDF (dropColumn (injectConstants req.data) t)).map
                Prod.fst))] := by
  have hb : (dfColumns (injectConstants req.data)).contains t = true := by
    simp [hfound]
  have hbe : (t == "") = false := beq_eq_false_iff_ne.mpr hne
  simp [fitModelWith, ht, hdata, hbe, hb, hfound]

/-- On the missing-target path — nonempty data, nonempty target name
absent even after injection — the handler returns the 400 error naming
the target, whatever the engine. -/
theorem fitModelWith_target_not_found (engine : Engine) (req : FitRequest)
    (t : String) (ht : req.output_column = some t) (hne : t ≠ "")
    (hdata : req.data.isEmpty = false)
    (hmiss : t ∉ dfColumns (injectConstants req.data)) :
    fitModelWith engine req = .error (targetNotFoundMsg t) 400 := by
  have hb : (dfColumns (injectConstants req.data)).contains t = false := by
    simp [hmiss]
  have hbe : (t == "") = false := beq_eq_false_iff_ne.mpr hne
  simp [fitModelWith, ht, hdata, hbe, hb, hmiss]

/-! ### C4: fields of a successful result -/

/-- C4 counterexample: a successful run whose response body has no
`raw_error` key — the handler (app.py lines 122-126) returns only
`formula`, `accuracy` and `feature_names`, never the raw error. -/
theorem fit_response_no_raw_error :
    (fit_model reqExample).isOk = true ∧
    "raw_error" ∉ (fit_model reqExample).keys ∧
    (fit_model reqExample).keys = ["formula", "accuracy", "feature_names"] := by
  decide

/-- C4 (amended): every successful response body carries exactly the keys
`formula`, `accuracy` and `feature_names`, in that order — in particular
no `raw_error` field is returned. -/
theorem fit_response_fields (engine : Engine) (req : FitRequest)
    (body : List (String × JValue)) (h : fitModelWith engine req = .ok body) :
    body.map Prod.fst = ["formula", "accuracy", "feature_names"] ∧
    "raw_error" ∉ body.map Prod.fst := by
  simp only [fitModelWith] at h
  split at h
  · exact absurd h (by simp)
  · split at h
    · exact absurd h (by simp)
    · injection h with hbody
      subst hbody
      exact ⟨rfl, by simp⟩

/-- Witness for the amended C4 at `reqExample`. -/
theorem fit_response_fields_witness :
    exampleBody.map Prod.fst = ["formula", "accuracy", "feature_names"] ∧
    "raw_error" ∉ exampleBody.map Prod.fst :=
  fit_response_fields runEngine reqExample exampleBody (by decide)

/-! ### C5: engine configuration vs. the caller's request -/

/-- C5 counterexample: the caller requests `population_size` 5 (plus 3
generations and seed 7) in the request body, yet the engine parameters
are built with population 1000, 20 generations and seed 42; an engine
that echoes the population size it receives as the score observes 1000
through the actual pipeline. -/
theorem engine_ignores_caller_config :
    reqCallerConfig.extra.lookup "population_size" = some 5 ∧
    (engineConfig (resolvedFunctionSet reqCallerConfig.function_set)).population_size
      = 1000 ∧
    (engineConfig (resolvedFunctionSet reqCallerConfig.function_set)).generations
      = 20 ∧
    (engineConfig (resolvedFunctionSet reqCallerConfig.function_set)).random_state
      = 42 ∧
    fitModelWith probePopulation reqCallerConfig =
      .ok [("formula", .str ""), ("accuracy", .num 1000),
           ("feature_names", .strList
             ["x", "const_pi", "const_e", "const_g", "const_0",
              "1", "2", "3", "4", "5", "6", "7", "8", "9", "10"])] := by
  decide

/-- C5 (amended): only the function set is taken from the request (via
`FUNCTION_MAP`, defaulting to add, sub, mul, div); every other engine
parameter is a hardcoded literal — population 1000, 20 generations, no
constant range, stopping criteria 0.001, crossover 0.7, subtree mutation
0.1, hoist mutation 0.05, point mutation 0.1, max_samples 0.9, parsimony
0.02, seed 42, all cores — and the response is unchanged by any request
fields other than `data`, `function_set` and `output_column`. -/
theorem engine_config_hardcoded (engine : Engine) (r1 r2 : FitRequest)
    (hdata : r1.data = r2.data) (hfs : r1.function_set = r2.function_set)
    (ht : r1.output_column = r2.output_column) :
    fitModelWith engine r1 = fitModelWith engine r2 ∧
    engineConfig (resolvedFunctionSet r1.function_set) =
      { population_size := 1000, generations := 20, const_range := none,
        stopping_criteria := 0.001, p_crossover := 0.7,
        p_subtree_mutation := 0.1, p_hoist_mutation := 0.05,
        p_point_mutation := 0.1, max_samples := 0.9, verbose := 0,
        parsimony_coefficient := 0.02, random_state := 42,
        function_set := resolvedFunctionSet r1.function_set,
        n_jobs := -1 } := by
  refine ⟨?_, rfl⟩
  simp only [fitModelWith, hdata, hfs, ht]

/-- Witness for the amended C5: two requests differing only in the
caller-chosen engine options produce the same response. -/
theorem engine_config_hardcoded_witness :
    fitModelWith runEngine reqExtraA = fitModelWith runEngine reqExtraB ∧
    engineConfig (resolvedFunctionSet reqExtraA.function_set) =
      { population_size := 1000, generations := 20, const_range := none,
        stopping_criteria := 0.001, p_crossover := 0.7,
        p_subtree_mutation := 0.1, p_hoist_mutation := 0.05,
        p_point_mutation := 0.1, max_samples := 0.9, verbose := 0,
        parsimony_coefficient := 0.02, random_state := 42,
        function_set := resolvedFunctionSet reqExtraA.function_set,
        n_jobs := -1 } :=
  engine_config_hardcoded runEngine reqExtraA reqExtraB rfl rfl rfl

/-! ### C6: missing target column -/

/-- C6 counterexample: the target `const_pi` is absent from the supplied
dataset, yet the handler succeeds — constant injection (app.py lines
68-75) runs before the presence check (line 77), so the regressor is
fitted with the injected constant column as the target instead of a
`DatasetError` being returned. -/
theorem missing_target_still_fitted :
    "const_pi" ∉ dfColumns reqTargetConstPi.data ∧
    (fit_model reqTargetConstPi).isOk = true := by
  decide

/-- C6 (amended): for every request whose target column is missing from
the dataset after constant injection, the handler returns the 400 error
naming the target, and no evolution is attempted: the result is the same
error whatever engine is plugged in, so the regressor's fit is never
invoked.  (A target missing from the supplied data but equal to an
injected constant name is instead treated as present.) -/
theorem missing_target_rejected (engine : Engine) (req : FitRequest)
    (t : String) (ht : req.output_column = some t) (hne : t ≠ "")
    (hdata : req.data.isEmpty = false)
    (hmiss : t ∉ dfColumns (injectConstants req.data)) :
    fitModelWith engine req = .error (targetNotFoundMsg t) 400 ∧
    (fitModelWith engine req).isOk = false ∧
    (∀ e2 : Engine, fitModelWith e2 req = fitModelWith engine req) := by
  have herr := fitModelWith_target_not_found engine req t ht hne hdata hmiss
  refine ⟨herr, by rw [herr]; rfl, fun e2 => ?_⟩
  rw [fitModelWith_target_not_found e2 req t ht hne hdata hmiss, herr]

/-- Witness for the amended C6 at the concrete request whose target
`Energy` is absent both from the data and from the injected names. -/
theorem missing_target_rejected_witness :
    fitModelWith runEngine reqTargetAbsent
        = .error (targetNotFoundMsg "Energy") 400 ∧
    (fitModelWith runEngine reqTargetAbsent).isOk = false :=
  ⟨(missing_target_rejected runEngine reqTargetAbsent "Energy" rfl
      (by decide) (by decide) (by decide)).1,
   (missing_target_rejected runEngine reqTargetAbsent "Energy" rfl
      (by decide) (by decide) (by decide)).2.1⟩

/-! ### C8: determinism -/

/-- C8: determinism of a run — the response is a pure function of the
request: two runs with identical seed, Config and Dataset (an identical
request body) against the same deterministic engine produce the same
response, and the engine is always invoked with the fixed seed
`random_state = 42`. -/
theorem fit_deterministic (engine : Engine) (r1 r2 : FitRequest)
    (h : r1 = r2) :
    fitModelWith engine r1 = fitModelWith engine r2 ∧
    (engineConfig (resolvedFunctionSet r1.function_set)).random_state = 42 :=
  ⟨by rw [h], rfl⟩

/-- Witness for C8 at two identical example requests. -/
theorem fit_deterministic_witness :
    fitModelWith runEngine reqExample = fitModelWith runEngine reqExample ∧
    (engineConfig (resolvedFunctionSet reqExample.function_set)).random_state
      = 42 :=
  fit_deterministic runEngine reqExample reqExample rfl

/-! ### C9: constant column injection -/

/-- C9 counterexample: with target `const_pi` (absent from the supplied
data), the run succeeds — the injected name is treated as present — but
the returned `feature_names` does not include `const_pi`: the target
column is dropped from the feature matrix, so `feature_names` does not
always include all 14 injected names. -/
theorem injected_name_missing_from_features :
    "const_pi" ∈ injectedNames ∧
    "const_pi" ∉ dfColumns reqTargetConstPi.data ∧
    (fit_model reqTargetConstPi).isOk = true ∧
    "const_pi" ∉ (fit_model reqTargetConstPi).featureNames := by
  decide

/-- C9 (amended): the handler injects 14 constant columns — `const_pi` =
3.14159, `const_e` = 2.71828, `const_g` = 9.8, `const_0` = 0.0 and `"1"`
… `"10"` holding 1 … 10 — appending them in that order to a dataset that
does not already use those names; a target name equal to an injected name
is treated as present even though absent from the caller's data (the run
succeeds and fits against the injected column); and the returned
`feature_names` includes every injected name except one serving as the
target. -/
theorem constants_injected (engine : Engine) (req : FitRequest) (t : String)
    (ht : req.output_column = some t) (hne : t ≠ "")
    (hdata : req.data.isEmpty = false)
    (hfresh : ∀ n ∈ injectedNames, n ∉ dfColumns req.data) :
    dfColumns (injectConstants req.data)
        = dfColumns req.data ++ injectedNames ∧
    (∀ p ∈ namedConstants ++ intConstants,
      getColumn (injectConstants req.data) p.1
        = List.replicate (numRows req.data) (some p.2)) ∧
    (t ∈ injectedNames →
      fitModelWith engine req =
        .ok [("formula", .str (engine
                (engineConfig (resolvedFunctionSet req.function_set))
                (fillnaDF (dropColumn (injectConstants req.data) t))
                (fillnaColumn (getColumn (injectConstants req.data) t))).formula),
             ("accuracy", .num (engine
                (engineConfig (resolvedFunctionSet req.function_set))
                (fillnaDF (dropColumn (injectConstants req.data) t))
                (fillnaColumn (getColumn (injectConstants req.data) t))).accuracy),
             ("feature_names", .strList
                ((fillnaDF (dropColumn (injectConstants req.data) t)).map
                  Prod.fst))]) ∧
    (∀ n ∈ injectedNames, n ≠ t →
      n ∈ (fillnaDF (dropColumn (injectConstants req.data) t)).map Prod.fst) := by
  obtain ⟨hcols, hrows, hget, hpres⟩ := injectConstants_fresh req.data hfresh
  refine ⟨hcols, hget, fun htin => ?_, fun n hn hnt => ?_⟩
  · have hfound : t ∈ dfColumns (injectConstants req.data) := by
      rw [hcols]
      exact List.mem_append_right _ htin
    exact fitModelWith_ok engine req t ht hne hdata hfound
  · rw [fillnaDF_names, dropColumn_names]
    rw [List.mem_filter]
    refine ⟨?_, by simp [hnt]⟩
    rw [hcols]
    exact List.mem_append_right _ hn

/-- Witness for the amended C9 at `reqExample` (fresh column names `x`,
`y`, target `y`): the names are appended, `const_g` reads back as the
constant 9.8, and `const_pi` is among the returned feature names. -/
theorem constants_injected_witness :
    dfColumns (injectConstants reqExample.data)
        = dfColumns reqExample.data ++ injectedNames ∧
    getColumn (injectConstants reqExample.data) "const_g"
        = List.replicate (numRows reqExample.data) (some (9.8 : ℚ)) ∧
    "const_pi" ∈ (fillnaDF (dropColumn (injectConstants reqExample.data) "y")).map
        Prod.fst := by
  have h := constants_injected runEngine reqExample "y" rfl (by decide)
    (by decide) (by decide)
  exact ⟨h.1, h.2.1 ("const_g", 9.8) (by simp [namedConstants, intConstants]),
    h.2.2.2 "const_pi" (by decide) (by decide)⟩

/-! ### C10: missing values are zero-filled -/

/-- C10: missing (`NaN`/`null`) cells are silently zero-filled, never
rejected: `fillna(0)` maps a missing cell to `0` and keeps present
values; the hypotheses below constrain only column names — nothing about
cell contents — so missing values never cause a dataset error, and the
handler passes the zero-filled feature matrix and target column to the
engine. -/
theorem missing_values_zero_filled (engine : Engine) (req : FitRequest)
    (t : String) (ht : req.output_column = some t) (hne : t ≠ "")
    (hdata : req.data.isEmpty = false)
    (hfound : t ∈ dfColumns (injectConstants req.data)) :
    fillnaCell none = 0 ∧ (∀ q : ℚ, fillnaCell (some q) = q) ∧
    (fitModelWith engine req).isOk = true ∧
    fitModelWith engine req =
      .ok [("formula", .str (engine
              (engineConfig (resolvedFunctionSet req.function_set))
              (fillnaDF (dropColumn (injectConstants req.data) t))
              (fillnaColumn (getColumn (injectConstants req.data) t))).formula),
           ("accuracy", .num (engine
              (engineConfig (resolvedFunctionSet req.function_set))
              (fillnaDF (dropColumn (injectConstants req.data) t))
              (fillnaColumn (getColumn (injectConstants req.data) t))).accuracy),
           ("feature_names", .strList
              ((fillnaDF (dropColumn (injectConstants req.data) t)).map
                Prod.fst))] := by
  have hok := fitModelWith_ok engine req t ht hne hdata hfound
  exact ⟨rfl, fun q => rfl, by rw [hok]; rfl, hok⟩

/-- Witness for C10 at `reqExample`, whose target column `y` holds the
missing value at row 1: the run succeeds and the engine receives the
zero-filled target `[3, 0]`. -/
theorem missing_values_zero_filled_witness :
    fillnaCell none = 0 ∧
    (fitModelWith runEngine reqExample).isOk = true ∧
    fillnaColumn (getColumn (injectConstants reqExample.data) "y") = [3, 0] := by
  have h := missing_values_zero_filled runEngine reqExample "y" rfl
    (by decide) (by decide) (by decide)
  exact ⟨h.1, h.2.2.1, by decide⟩

end SRService
